import Mathlib

/-!
# Verification of the telco delta-tracking metrics export pipeline

Shallow embedding of the statistics data model (`stats` package), the
Transformer (`stats/export/transformer.go`), the Delta Engine and Export
Scheduler (`stats/export/scheduler.go`) and the sink `Export` entry points
(`http_exporter.go`, `postgres_exporter.go`, `file_exporter.go`).

Conventions of the embedding:
* Go `uint64` is modelled as `Nat`.  The only arithmetic the embedded code
  performs on these values is the guarded subtraction `safeSub64` (which in Go
  never underflows, by its guard) and comparisons, so `Nat` coincides with
  `uint64` on every reachable computation.
* Go `float64` is modelled as `ℚ`.  The embedded code only copies float
  values, converts unsigned integers to floats, and compares them to zero;
  no float rounding behaviour is involved.
* Go `time.Time` is modelled as `Nat` (an opaque instant; the code only
  copies timestamps).
* Go maps are modelled as association lists `List (κ × α)`; a lookup of an
  absent key yields the zero value of the element type, as in Go.  Map
  iteration order in Go is unspecified; the association-list order is one
  admissible order, and all theorems below are per-key statements that do
  not depend on it.
* `interface{}` values stored in `CustomMetrics` are modelled by the
  inductive `CustomValue`; Go's type assertion `.(*EIRStats)` succeeds only
  on the pointer-typed variant `eirPtr`, mirrored by `asEIRPtr`.
-/

namespace Telco

/-- Zero-default lookup in an association list, mirroring Go's `m[k]` for a
map with value type whose zero value is `default`. -/
def lookupA {κ α : Type} [BEq κ] (m : List (κ × α)) (k : κ) : Option α :=
  (m.find? (fun p => p.1 == k)).map (fun p => p.2)

/-- Go map read `m[k]` with explicit zero value `z` for absent keys. -/
def lookupD {κ α : Type} [BEq κ] (m : List (κ × α)) (k : κ) (z : α) : α :=
  (lookupA m k).getD z

/-! ## Statistics data model (package `stats`)

Structures translated from the `ServiceStats` model used by the export
package (struct `InterfaceCheckStats` is declared outside the files provided
under `src/`; its shape — total/success/failed counters plus a
by-result-code map — is fixed by its construction sites in
`scheduler.go` (`calculateEIRDelta`) and the test fixtures). -/

/-- `stats.ConnectionStats`. -/
structure ConnectionStats where
  total : Nat
  active : Nat
  failed : Nat
  closed : Nat
deriving Repr, DecidableEq

/-- The Go zero value of `ConnectionStats`. -/
def ConnectionStats.zero : ConnectionStats := ⟨0, 0, 0, 0⟩

/-- `stats.SourceStats`. -/
structure SourceStats where
  total : Nat
  success : Nat
  failed : Nat
deriving Repr, DecidableEq

/-- The Go zero value of `SourceStats`. -/
def SourceStats.zero : SourceStats := ⟨0, 0, 0⟩

/-- `stats.OperationStats`. -/
structure OperationStats where
  total : Nat
  success : Nat
  failed : Nat
  avgLatencyMs : ℚ
deriving Repr, DecidableEq

/-- The Go zero value of `OperationStats`. -/
def OperationStats.zero : OperationStats := ⟨0, 0, 0, 0⟩

/-- `stats.RequestStats`. -/
structure RequestStats where
  total : Nat
  success : Nat
  failed : Nat
  pending : Nat
  bytesSent : Nat
  bytesRecv : Nat
  bySource : List (String × SourceStats)
  byOperation : List (String × OperationStats)
deriving Repr, DecidableEq

/-- `stats.PerformanceStats`. -/
structure PerformanceStats where
  requestsPerSecond : ℚ
  avgLatencyMs : ℚ
  minLatencyMs : ℚ
  maxLatencyMs : ℚ
  p50LatencyMs : ℚ
  p95LatencyMs : ℚ
  p99LatencyMs : ℚ
deriving Repr, DecidableEq

/-- `stats.ErrorInfo`. -/
structure ErrorInfo where
  message : String
  code : String
  timestamp : Nat
  count : Nat
deriving Repr, DecidableEq

/-- `stats.ErrorStats` (`LastError *ErrorInfo` becomes an `Option`). -/
structure ErrorStats where
  total : Nat
  byType : List (String × Nat)
  byInterface : List (String × Nat)
  lastError : Option ErrorInfo
deriving Repr, DecidableEq

/-- `stats.InterfaceCheckStats`: per-interface equipment-check counters with
a by-result-code breakdown (shape fixed by `calculateEIRDelta` and the test
fixtures; the struct declaration itself is not among the provided files). -/
structure InterfaceCheckStats where
  total : Nat
  success : Nat
  failed : Nat
  byResultCode : List (Int × Nat)
deriving Repr, DecidableEq

/-- The Go zero value of `InterfaceCheckStats` (`prev.…ByInterface[ifName]`
on a missing key). -/
def InterfaceCheckStats.zero : InterfaceCheckStats := ⟨0, 0, 0, []⟩

/-- `stats.EquipmentCheckStats` as used by the export package
(`ByInterface map[string]InterfaceCheckStats`). -/
structure EquipmentCheckStats where
  total : Nat
  success : Nat
  failed : Nat
  byInterface : List (String × InterfaceCheckStats)
deriving Repr, DecidableEq

/-- `stats.DatabaseOperationStats`. -/
structure DatabaseOperationStats where
  queries : Nat
  inserts : Nat
  updates : Nat
  deletes : Nat
  errors : Nat
  avgLatencyMs : ℚ
  activeQueries : Nat
deriving Repr, DecidableEq

/-- `stats.CacheStats`. -/
structure CacheStats where
  hits : Nat
  misses : Nat
  hitRate : ℚ
  size : Nat
  maxSize : Nat
  evictions : Nat
deriving Repr, DecidableEq

/-- `stats.EIRStats`. -/
structure EIRStats where
  equipmentChecks : EquipmentCheckStats
  databaseOps : DatabaseOperationStats
  cacheStats : CacheStats
  byEquipmentStatus : List (String × Nat)
deriving Repr, DecidableEq

/-- An `interface{}` value stored in `CustomMetrics` / `InterfaceStats`.
`eirPtr` is a `*stats.EIRStats` (the type the export code asserts for);
`eirVal` is a value-typed `stats.EIRStats` (what `ParsePrometheusMetrics`
stores under key "eir"); `cacheVal` is a value-typed `stats.CacheStats`
(stored under key "cache" by the same parser); `otherVal` stands for any
other dynamic type. -/
inductive CustomValue where
  | eirPtr (e : EIRStats)
  | eirVal (e : EIRStats)
  | cacheVal (c : CacheStats)
  | otherVal
deriving Repr, DecidableEq

/-- Go's type assertion `v.(*stats.EIRStats)` on an optional dynamic value:
succeeds exactly on the pointer-typed variant. -/
def asEIRPtr : Option CustomValue → Option EIRStats
  | some (CustomValue.eirPtr e) => some e
  | _ => none

/-- `stats.ServiceStats`. -/
structure ServiceStats where
  serviceName : String
  serviceVersion : String
  uptime : String
  timestamp : Nat
  connections : ConnectionStats
  requests : RequestStats
  performance : PerformanceStats
  errors : ErrorStats
  interfaceStats : List (String × CustomValue)
  customMetrics : List (String × CustomValue)
deriving Repr, DecidableEq

/-! ## Metric records and counter identifiers (`export` package) -/

/-- `export.MetricRecord` (shape fixed by `createRecord` in
`transformer.go` and the relational-sink column list: integer counter id,
float value, string cause code, hostname, system name, timestamp). -/
structure MetricRecord where
  counterID : Int
  value : ℚ
  causeCode : String
  hostname : String
  systemName : String
  timestamp : Nat
deriving Repr, DecidableEq

/-- Counter id constants from the `export` package. -/
def CounterTotalRequests : Int := 1000
def CounterSuccessfulRequests : Int := 1001
def CounterFailedRequests : Int := 1002
def CounterPendingRequests : Int := 1003
def CounterDiameterTotal : Int := 1100
def CounterDiameterSuccess : Int := 1101
def CounterDiameterFailed : Int := 1102
def CounterDiameterResultCode : Int := 1103
def CounterHTTPTotal : Int := 1200
def CounterHTTPSuccess : Int := 1201
def CounterHTTPFailed : Int := 1202
def CounterHTTPStatusCode : Int := 1203
def CounterRequestsPerSecond : Int := 1300
def CounterAvgLatencyMs : Int := 1301
def CounterMinLatencyMs : Int := 1302
def CounterMaxLatencyMs : Int := 1303
def CounterP50LatencyMs : Int := 1304
def CounterP95LatencyMs : Int := 1305
def CounterP99LatencyMs : Int := 1306
def CounterCacheHits : Int := 1400
def CounterCacheMisses : Int := 1401
def CounterCacheHitRate : Int := 1402
def CounterCacheSize : Int := 1403
def CounterDBQueries : Int := 1500
def CounterDBInserts : Int := 1501
def CounterDBUpdates : Int := 1502
def CounterDBDeletes : Int := 1503
def CounterWhitelisted : Int := 1600
def CounterBlacklisted : Int := 1601
def CounterGreylisted : Int := 1602
def CounterActiveConnections : Int := 1700
def CounterTotalConnections : Int := 1701
def CounterFailedConnections : Int := 1702

/-- `export.CounterMetadata`. -/
structure CounterMetadata where
  id : Int
  name : String
  description : String
  unit : String
  type : String
deriving Repr, DecidableEq

/-- `export.GetCounterMetadata`: the metadata table for all defined
counters, including each metric's kind tag ("counter", "gauge", "rate"). -/
def GetCounterMetadata : List CounterMetadata :=
  [ ⟨CounterTotalRequests, "total_requests", "Total number of requests processed", "count", "counter"⟩,
    ⟨CounterSuccessfulRequests, "successful_requests", "Total number of successful requests", "count", "counter"⟩,
    ⟨CounterFailedRequests, "failed_requests", "Total number of failed requests", "count", "counter"⟩,
    ⟨CounterPendingRequests, "pending_requests", "Number of requests currently pending", "count", "gauge"⟩,
    ⟨CounterDiameterTotal, "diameter_total", "Total Diameter requests", "count", "counter"⟩,
    ⟨CounterDiameterSuccess, "diameter_success", "Successful Diameter requests", "count", "counter"⟩,
    ⟨CounterDiameterFailed, "diameter_failed", "Failed Diameter requests", "count", "counter"⟩,
    ⟨CounterDiameterResultCode, "diameter_result_code", "Diameter result code distribution", "count", "counter"⟩,
    ⟨CounterHTTPTotal, "http_total", "Total HTTP requests", "count", "counter"⟩,
    ⟨CounterHTTPSuccess, "http_success", "Successful HTTP requests", "count", "counter"⟩,
    ⟨CounterHTTPFailed, "http_failed", "Failed HTTP requests", "count", "counter"⟩,
    ⟨CounterHTTPStatusCode, "http_status_code", "HTTP status code distribution", "count", "counter"⟩,
    ⟨CounterRequestsPerSecond, "requests_per_second", "Request throughput rate", "requests/sec", "gauge"⟩,
    ⟨CounterAvgLatencyMs, "avg_latency_ms", "Average request latency", "milliseconds", "gauge"⟩,
    ⟨CounterMinLatencyMs, "min_latency_ms", "Minimum request latency", "milliseconds", "gauge"⟩,
    ⟨CounterMaxLatencyMs, "max_latency_ms", "Maximum request latency", "milliseconds", "gauge"⟩,
    ⟨CounterP50LatencyMs, "p50_latency_ms", "50th percentile latency", "milliseconds", "gauge"⟩,
    ⟨CounterP95LatencyMs, "p95_latency_ms", "95th percentile latency", "milliseconds", "gauge"⟩,
    ⟨CounterP99LatencyMs, "p99_latency_ms", "99th percentile latency", "milliseconds", "gauge"⟩,
    ⟨CounterCacheHits, "cache_hits", "Number of cache hits", "count", "counter"⟩,
    ⟨CounterCacheMisses, "cache_misses", "Number of cache misses", "count", "counter"⟩,
    ⟨CounterCacheHitRate, "cache_hit_rate", "Cache hit rate percentage", "percent", "gauge"⟩,
    ⟨CounterCacheSize, "cache_size", "Current cache size", "entries", "gauge"⟩,
    ⟨CounterDBQueries, "db_queries", "Total database queries", "count", "counter"⟩,
    ⟨CounterDBInserts, "db_inserts", "Total database inserts", "count", "counter"⟩,
    ⟨CounterDBUpdates, "db_updates", "Total database updates", "count", "counter"⟩,
    ⟨CounterDBDeletes, "db_deletes", "Total database deletes", "count", "counter"⟩,
    ⟨CounterWhitelisted, "whitelisted", "Whitelisted equipment checks", "count", "counter"⟩,
    ⟨CounterBlacklisted, "blacklisted", "Blacklisted equipment checks", "count", "counter"⟩,
    ⟨CounterGreylisted, "greylisted", "Greylisted equipment checks", "count", "counter"⟩,
    ⟨CounterActiveConnections, "active_connections", "Currently active connections", "count", "gauge"⟩,
    ⟨CounterTotalConnections, "total_connections", "Total connections established", "count", "counter"⟩,
    ⟨CounterFailedConnections, "failed_connections", "Failed connection attempts", "count", "counter"⟩ ]

/-- `export.GetCounterName`. -/
def GetCounterName (counterID : Int) : String :=
  match GetCounterMetadata.find? (fun m => m.id == counterID) with
  | some m => m.name
  | none => "unknown"

/-- The kind tag ("counter" / "gauge") recorded for a counter id in
`GetCounterMetadata`. -/
def counterKind (counterID : Int) : String :=
  match GetCounterMetadata.find? (fun m => m.id == counterID) with
  | some m => m.type
  | none => "unknown"

/-! ## Transformer (`transformer.go`) -/

/-- `export.TransformerConfig` (fields fixed by its uses in
`transformer.go`: include/exclude counter-id lists and a sample rate). -/
structure TransformerConfig where
  sampleRate : ℚ
  includeCounters : List Int
  excludeCounters : List Int
deriving Repr, DecidableEq

/-- `export.Transformer`. -/
structure Transformer where
  hostname : String
  systemName : String
  config : TransformerConfig
deriving Repr, DecidableEq

/-- `export.NewTransformer`: default configuration, sample rate 1.0, no
include/exclude lists. -/
def NewTransformer (hostname systemName : String) : Transformer :=
  { hostname := hostname, systemName := systemName,
    config := { sampleRate := 1, includeCounters := [], excludeCounters := [] } }

/-- `export.NewTransformerWithConfig`. -/
def NewTransformerWithConfig (hostname systemName : String)
    (config : TransformerConfig) : Transformer :=
  { hostname := hostname, systemName := systemName, config := config }

/-- `Transformer.createRecord`. -/
def Transformer.createRecord (t : Transformer) (counterID : Int) (value : ℚ)
    (causeCode : String) (timestamp : Nat) : MetricRecord :=
  { counterID := counterID, value := value, causeCode := causeCode,
    hostname := t.hostname, systemName := t.systemName, timestamp := timestamp }

/-- The per-interface counter-id table of `transformEIRStats` (the `switch`
on the interface name): diameter and http are recognised, any other
interface is skipped (`continue`). -/
def interfaceCounterIDs : String → Option (Int × Int × Int × Int)
  | "diameter" => some (CounterDiameterTotal, CounterDiameterSuccess,
      CounterDiameterFailed, CounterDiameterResultCode)
  | "http" => some (CounterHTTPTotal, CounterHTTPSuccess,
      CounterHTTPFailed, CounterHTTPStatusCode)
  | _ => none

/-- `Transformer.transformEIRStats`: EIR-specific records — per-interface
totals and result codes, cache, database and equipment-status metrics,
every one guarded by a strict `> 0` check. -/
def Transformer.transformEIRStats (t : Transformer) (eirStats : EIRStats)
    (timestamp : Nat) : List MetricRecord :=
  let interfaceRecords :=
    eirStats.equipmentChecks.byInterface.flatMap (fun p =>
      let ifName := p.1
      let ifStats := p.2
      match interfaceCounterIDs ifName with
      | none => []
      | some (totalCounter, successCounter, failedCounter, resultCodeCounter) =>
        (if ifStats.total > 0 then
          [t.createRecord totalCounter (ifStats.total : ℚ) ifName timestamp] else [])
        ++ (if ifStats.success > 0 then
          [t.createRecord successCounter (ifStats.success : ℚ) ifName timestamp] else [])
        ++ (if ifStats.failed > 0 then
          [t.createRecord failedCounter (ifStats.failed : ℚ) ifName timestamp] else [])
        ++ ifStats.byResultCode.flatMap (fun q =>
            if q.2 > 0 then
              [t.createRecord resultCodeCounter (q.2 : ℚ)
                (ifName ++ ":" ++ toString q.1) timestamp]
            else []))
  let cacheRecords :=
    (if eirStats.cacheStats.hits > 0 then
      [t.createRecord CounterCacheHits (eirStats.cacheStats.hits : ℚ) "" timestamp] else [])
    ++ (if eirStats.cacheStats.misses > 0 then
      [t.createRecord CounterCacheMisses (eirStats.cacheStats.misses : ℚ) "" timestamp] else [])
    ++ (if eirStats.cacheStats.hitRate > 0 then
      [t.createRecord CounterCacheHitRate eirStats.cacheStats.hitRate "" timestamp] else [])
    ++ (if eirStats.cacheStats.size > 0 then
      [t.createRecord CounterCacheSize (eirStats.cacheStats.size : ℚ) "" timestamp] else [])
  let dbRecords :=
    (if eirStats.databaseOps.queries > 0 then
      [t.createRecord CounterDBQueries (eirStats.databaseOps.queries : ℚ) "" timestamp] else [])
    ++ (if eirStats.databaseOps.inserts > 0 then
      [t.createRecord CounterDBInserts (eirStats.databaseOps.inserts : ℚ) "" timestamp] else [])
    ++ (if eirStats.databaseOps.updates > 0 then
      [t.createRecord CounterDBUpdates (eirStats.databaseOps.updates : ℚ) "" timestamp] else [])
    ++ (if eirStats.databaseOps.deletes > 0 then
      [t.createRecord CounterDBDeletes (eirStats.databaseOps.deletes : ℚ) "" timestamp] else [])
  let statusRecords :=
    (match lookupA eirStats.byEquipmentStatus "whitelisted" with
      | some count => if count > 0 then
          [t.createRecord CounterWhitelisted (count : ℚ) "" timestamp] else []
      | none => [])
    ++ (match lookupA eirStats.byEquipmentStatus "blacklisted" with
      | some count => if count > 0 then
          [t.createRecord CounterBlacklisted (count : ℚ) "" timestamp] else []
      | none => [])
    ++ (match lookupA eirStats.byEquipmentStatus "greylisted" with
      | some count => if count > 0 then
          [t.createRecord CounterGreylisted (count : ℚ) "" timestamp] else []
      | none => [])
  interfaceRecords ++ cacheRecords ++ dbRecords ++ statusRecords

/-- `Transformer.isIncluded`: linear scan of the include list. -/
def Transformer.isIncluded (t : Transformer) (counterID : Int) : Bool :=
  t.config.includeCounters.any (fun id => id == counterID)

/-- `Transformer.isExcluded`: linear scan of the exclude list. -/
def Transformer.isExcluded (t : Transformer) (counterID : Int) : Bool :=
  t.config.excludeCounters.any (fun id => id == counterID)

/-- `Transformer.filterRecords`: pass-through when both lists are empty;
otherwise drop a record if its id is excluded, then drop it if an include
list exists and does not list the id. -/
def Transformer.filterRecords (t : Transformer) (records : List MetricRecord) :
    List MetricRecord :=
  if t.config.includeCounters.length = 0 ∧ t.config.excludeCounters.length = 0 then
    records
  else
    records.filter (fun record =>
      !(t.isExcluded record.counterID)
      && !(t.config.includeCounters.length > 0 && !(t.isIncluded record.counterID)))

/-- The general (non-EIR) section of `Transformer.Transform`: the three
request counters are appended unconditionally; every other field is guarded
by a strict `> 0` check. -/
def Transformer.baseRecords (t : Transformer) (stats : ServiceStats) :
    List MetricRecord :=
  let timestamp := stats.timestamp
  [t.createRecord CounterTotalRequests (stats.requests.total : ℚ) "" timestamp,
   t.createRecord CounterSuccessfulRequests (stats.requests.success : ℚ) "" timestamp,
   t.createRecord CounterFailedRequests (stats.requests.failed : ℚ) "" timestamp]
  ++ (if stats.requests.pending > 0 then
      [t.createRecord CounterPendingRequests (stats.requests.pending : ℚ) "" timestamp] else [])
  ++ (if stats.connections.active > 0 then
      [t.createRecord CounterActiveConnections (stats.connections.active : ℚ) "" timestamp] else [])
  ++ (if stats.connections.total > 0 then
      [t.createRecord CounterTotalConnections (stats.connections.total : ℚ) "" timestamp] else [])
  ++ (if stats.connections.failed > 0 then
      [t.createRecord CounterFailedConnections (stats.connections.failed : ℚ) "" timestamp] else [])
  ++ (if stats.performance.requestsPerSecond > 0 then
      [t.createRecord CounterRequestsPerSecond stats.performance.requestsPerSecond "" timestamp] else [])
  ++ (if stats.performance.avgLatencyMs > 0 then
      [t.createRecord CounterAvgLatencyMs stats.performance.avgLatencyMs "" timestamp] else [])
  ++ (if stats.performance.minLatencyMs > 0 then
      [t.createRecord CounterMinLatencyMs stats.performance.minLatencyMs "" timestamp] else [])
  ++ (if stats.performance.maxLatencyMs > 0 then
      [t.createRecord CounterMaxLatencyMs stats.performance.maxLatencyMs "" timestamp] else [])
  ++ (if stats.performance.p50LatencyMs > 0 then
      [t.createRecord CounterP50LatencyMs stats.performance.p50LatencyMs "" timestamp] else [])
  ++ (if stats.performance.p95LatencyMs > 0 then
      [t.createRecord CounterP95LatencyMs stats.performance.p95LatencyMs "" timestamp] else [])
  ++ (if stats.performance.p99LatencyMs > 0 then
      [t.createRecord CounterP99LatencyMs stats.performance.p99LatencyMs "" timestamp] else [])

/-- `Transformer.Transform`: the general records, then the EIR records when
`CustomMetrics["eir"]` carries a `*EIRStats` (type assertion), then the
include/exclude filter. -/
def Transformer.Transform (t : Transformer) (stats : ServiceStats) :
    List MetricRecord :=
  let eirRecords :=
    match asEIRPtr (lookupA stats.customMetrics "eir") with
    | some eirStats => t.transformEIRStats eirStats stats.timestamp
    | none => []
  t.filterRecords (t.baseRecords stats ++ eirRecords)

/-! ## Delta Engine and Export Scheduler (`scheduler.go`) -/

/-- `export.safeSub64`: saturating unsigned subtraction — `a - b` when
`a ≥ b`, else `0`. -/
def safeSub64 (a b : Nat) : Nat :=
  if a ≥ b then a - b else 0

/-- Common body of `calculateMapDelta64` and `calculateMapDeltaInt64`
(Go repeats the same loop once per key type): per key of the current map,
the saturating delta against the previous value (0 when the key is absent
from the previous map), kept only when strictly positive. -/
def calcMapDeltaCore {κ : Type} [BEq κ] (current prev : List (κ × Nat)) :
    List (κ × Nat) :=
  current.filterMap (fun p =>
    let diff := safeSub64 p.2 (lookupD prev p.1 0)
    if diff > 0 then some (p.1, diff) else none)

/-- `export.calculateMapDelta64`: per-key saturating delta over a
`map[string]uint64`, keeping only keys whose delta is strictly positive. -/
def calculateMapDelta64 (current prev : List (String × Nat)) :
    List (String × Nat) :=
  calcMapDeltaCore current prev

/-- `export.calculateMapDeltaInt64`: the same per-key saturating delta over
a `map[int]uint64`. -/
def calculateMapDeltaInt64 (current prev : List (Int × Nat)) :
    List (Int × Nat) :=
  calcMapDeltaCore current prev

/-- `ExportScheduler.calculateEIRDelta`: EIR counters are differenced with
`safeSub64`; `HitRate` and `Size` are copied from current (gauges); the
per-interface map is rebuilt from the keys of the current map, with a
missing previous interface read as the zero `InterfaceCheckStats`. -/
def calculateEIRDelta (current : EIRStats) (prev : Option EIRStats) : EIRStats :=
  match prev with
  | none => current
  | some prev =>
    { equipmentChecks :=
        { total := safeSub64 current.equipmentChecks.total prev.equipmentChecks.total
          success := safeSub64 current.equipmentChecks.success prev.equipmentChecks.success
          failed := safeSub64 current.equipmentChecks.failed prev.equipmentChecks.failed
          byInterface := current.equipmentChecks.byInterface.map (fun p =>
            let currIf := p.2
            let prevIf := lookupD prev.equipmentChecks.byInterface p.1 InterfaceCheckStats.zero
            (p.1,
             { total := safeSub64 currIf.total prevIf.total
               success := safeSub64 currIf.success prevIf.success
               failed := safeSub64 currIf.failed prevIf.failed
               byResultCode := calculateMapDeltaInt64 currIf.byResultCode prevIf.byResultCode })) }
      cacheStats :=
        { hits := safeSub64 current.cacheStats.hits prev.cacheStats.hits
          misses := safeSub64 current.cacheStats.misses prev.cacheStats.misses
          hitRate := current.cacheStats.hitRate
          size := current.cacheStats.size
          maxSize := 0, evictions := 0 }
      databaseOps :=
        { queries := safeSub64 current.databaseOps.queries prev.databaseOps.queries
          inserts := safeSub64 current.databaseOps.inserts prev.databaseOps.inserts
          updates := safeSub64 current.databaseOps.updates prev.databaseOps.updates
          deletes := safeSub64 current.databaseOps.deletes prev.databaseOps.deletes
          errors := 0, avgLatencyMs := 0, activeQueries := 0 }
      byEquipmentStatus :=
        calculateMapDelta64 current.byEquipmentStatus prev.byEquipmentStatus }

/-- `ExportScheduler.calculateDeltaStats`: with no previous snapshot the
current snapshot is returned unchanged; otherwise a fresh delta snapshot is
built — counters via `safeSub64`, gauges copied from current, the
`BySource`/`ByOperation` maps rebuilt from the current keys (missing
previous entries read as zero structs), and `CustomMetrics["eir"]`
recursed into only when the current entry passes the `*EIRStats` type
assertion. -/
def calculateDeltaStats (prevSnapshot : Option ServiceStats)
    (current : ServiceStats) : ServiceStats :=
  match prevSnapshot with
  | none => current
  | some prev =>
    { serviceName := current.serviceName
      serviceVersion := current.serviceVersion
      uptime := current.uptime
      timestamp := current.timestamp
      connections :=
        { active := current.connections.active
          total := safeSub64 current.connections.total prev.connections.total
          failed := safeSub64 current.connections.failed prev.connections.failed
          closed := 0 }
      requests :=
        { total := safeSub64 current.requests.total prev.requests.total
          success := safeSub64 current.requests.success prev.requests.success
          failed := safeSub64 current.requests.failed prev.requests.failed
          pending := current.requests.pending
          bytesSent := 0, bytesRecv := 0
          bySource := current.requests.bySource.map (fun p =>
            let currStat := p.2
            let prevStat := lookupD prev.requests.bySource p.1 SourceStats.zero
            (p.1,
             { total := safeSub64 currStat.total prevStat.total
               success := safeSub64 currStat.success prevStat.success
               failed := safeSub64 currStat.failed prevStat.failed }))
          byOperation := current.requests.byOperation.map (fun p =>
            let currStat := p.2
            let prevStat := lookupD prev.requests.byOperation p.1 OperationStats.zero
            (p.1,
             { total := safeSub64 currStat.total prevStat.total
               success := safeSub64 currStat.success prevStat.success
               failed := safeSub64 currStat.failed prevStat.failed
               avgLatencyMs := 0 })) }
      performance :=
        { requestsPerSecond := current.performance.requestsPerSecond
          avgLatencyMs := current.performance.avgLatencyMs
          minLatencyMs := current.performance.minLatencyMs
          maxLatencyMs := current.performance.maxLatencyMs
          p50LatencyMs := current.performance.p50LatencyMs
          p95LatencyMs := current.performance.p95LatencyMs
          p99LatencyMs := current.performance.p99LatencyMs }
      errors :=
        { total := safeSub64 current.errors.total prev.errors.total
          byType := calculateMapDelta64 current.errors.byType prev.errors.byType
          byInterface := calculateMapDelta64 current.errors.byInterface prev.errors.byInterface
          lastError := none }
      interfaceStats := []
      customMetrics :=
        match asEIRPtr (lookupA current.customMetrics "eir") with
        | some currEIR =>
          [("eir", CustomValue.eirPtr
              (calculateEIRDelta currEIR (asEIRPtr (lookupA prev.customMetrics "eir"))))]
        | none => [] }

/-- The scheduler's mutable state relevant to a cycle: the
previous-snapshot slot (`prevSnapshot *ServiceStats`, nil at construction). -/
structure SchedulerState where
  prevSnapshot : Option ServiceStats
deriving Repr, DecidableEq

/-- The dynamic value returned by `StatsCollectorInterface.GetStats()`:
either a `*ServiceStats`, or some other type on which the scheduler's cast
fails. -/
inductive StatsValue where
  | serviceStats (s : ServiceStats)
  | malformed
deriving Repr, DecidableEq

/-- `ExportScheduler.updatePreviousSnapshot`: overwrite the slot with the
current snapshot. -/
def updatePreviousSnapshot (_st : SchedulerState) (current : ServiceStats) :
    SchedulerState :=
  { prevSnapshot := some current }

/-- `ExportScheduler.exportCycle`, abstracted from timing, locking and
logging: cast the collected value (aborting the cycle when the cast fails),
compute the delta, transform it to records, return early — before the slot
update — when zero records resulted, otherwise store the current snapshot
in the slot and fan the records out.  The returned list is the batch handed
to every exporter (empty when nothing was fanned out). -/
def exportCycle (t : Transformer) (st : SchedulerState)
    (collected : StatsValue) : SchedulerState × List MetricRecord :=
  match collected with
  | StatsValue.malformed => (st, [])
  | StatsValue.serviceStats currentStats =>
    let deltaStats := calculateDeltaStats st.prevSnapshot currentStats
    let records := t.Transform deltaStats
    if records.length = 0 then (st, [])
    else (updatePreviousSnapshot st currentStats, records)

/-! ## Sink `Export` entry points

Each sink's `Export` is embedded as a function of the record batch and an
oracle standing for its transport (one HTTP POST, one database exec, one
file write).  The result pairs the Go return value (`error` becomes
`Except String Unit`) with the number of transport operations performed, so
"no I/O" is the statement that the count is zero.  Contexts are modelled by
a `Bool` that is true when the context is already cancelled at the
corresponding `select` check. -/

/-- `export.HTTPExporterConfig` (fields fixed by `NewHTTPExporter` and
`sendRequest`). -/
structure HTTPExporterConfig where
  name : String
  url : String
  timeoutMs : Nat
  retryAttempts : Nat
  retryDelayMs : Nat
  headers : List (String × String)
deriving Repr, DecidableEq

/-- `export.HTTPExporter`. -/
structure HTTPExporter where
  name : String
  config : HTTPExporterConfig
deriving Repr, DecidableEq

/-- The retry loop of `HTTPExporter.Export`: attempts numbered from 1 up to
`RetryAttempts`; the oracle `send` yields `none` on success or an error
string; the loop stops at the first success and otherwise reports the last
error after the final attempt.  Returns the outcome and the number of
`sendRequest` calls made. -/
def httpRetry (send : Nat → Option String) : Nat → Nat → Except String Unit × Nat
  | _, 0 => (Except.error "failed: no attempts", 0)
  | attempt, remaining + 1 =>
    match send attempt with
    | none => (Except.ok (), 1)
    | some err =>
      match remaining with
      | 0 => (Except.error ("failed after attempts: " ++ err), 1)
      | _ + 1 =>
        let rest := httpRetry send (attempt + 1) remaining
        (rest.1, rest.2 + 1)

/-- `HTTPExporter.Export`: empty batches return success immediately; then
the context is checked, and the batch is POSTed with bounded retries. -/
def HTTPExporter.Export (e : HTTPExporter) (ctxCancelled : Bool)
    (send : Nat → Option String) (records : List MetricRecord) :
    Except String Unit × Nat :=
  if records.length = 0 then (Except.ok (), 0)
  else if ctxCancelled then (Except.error "context cancelled", 0)
  else httpRetry send 1 e.config.retryAttempts

/-- `export.PostgresExporterConfig` (fields fixed by `NewPostgresExporter`
and `insertBatch`). -/
structure PostgresExporterConfig where
  name : String
  connectionString : String
  tableName : String
  batchSize : Nat
  maxRetry : Nat
deriving Repr, DecidableEq

/-- `export.PostgresExporter`. -/
structure PostgresExporter where
  name : String
  config : PostgresExporterConfig
deriving Repr, DecidableEq

/-- The retry loop of `PostgresExporter.insertBatch`: up to `MaxRetry`
executions of the multi-row INSERT for one batch.  Returns the outcome and
the number of database executions. -/
def pgExecRetry (exec : Nat → Option String) : Nat → Except String Unit × Nat
  | 0 => (Except.error "failed: no attempts", 0)
  | remaining + 1 =>
    match exec remaining with
    | none => (Except.ok (), 1)
    | some err =>
      match remaining with
      | 0 => (Except.error ("insert failed: " ++ err), 1)
      | _ + 1 =>
        let rest := pgExecRetry exec remaining
        (rest.1, rest.2 + 1)

/-- `PostgresExporter.insertBatch`: empty batches return success with no
database call; otherwise the INSERT is executed with bounded retries.  The
oracle is supplied per batch. -/
def PostgresExporter.insertBatch (e : PostgresExporter)
    (exec : Nat → Option String) (records : List MetricRecord) :
    Except String Unit × Nat :=
  if records.length = 0 then (Except.ok (), 0)
  else pgExecRetry exec e.config.maxRetry

/-- The batching loop of `PostgresExporter.Export` over the chunked record
list: batches are inserted in order, stopping at the first failed batch. -/
def pgExportBatches (e : PostgresExporter) (exec : Nat → Option String) :
    List (List MetricRecord) → Except String Unit × Nat
  | [] => (Except.ok (), 0)
  | batch :: rest =>
    let r := e.insertBatch exec batch
    match r.1 with
    | Except.error err => (Except.error ("failed to insert batch: " ++ err), r.2)
    | Except.ok _ =>
      let r2 := pgExportBatches e exec rest
      (r2.1, r.2 + r2.2)

/-- `PostgresExporter.Export`: empty batches return success immediately;
otherwise the records are processed in `BatchSize` chunks
(`NewPostgresExporter` forces `BatchSize ≥ 1`, defaulting to 1000). -/
def PostgresExporter.Export (e : PostgresExporter)
    (exec : Nat → Option String) (records : List MetricRecord) :
    Except String Unit × Nat :=
  if records.length = 0 then (Except.ok (), 0)
  else pgExportBatches e exec (records.toChunks e.config.batchSize)

/-- `export.FileExporterConfig` (fields fixed by `NewFileExporter`). -/
structure FileExporterConfig where
  name : String
  path : String
  maxSizeMB : Nat
  maxBackups : Nat
deriving Repr, DecidableEq

/-- `export.FileExporter`. -/
structure FileExporter where
  name : String
  config : FileExporterConfig
deriving Repr, DecidableEq

/-- The write loop of `FileExporter.Export`: one JSONL line per record
(marshalling is modelled by the injected total `encode`; a failed marshal
is skipped in Go, never failing the call).  The write oracle yields `none`
on success; the first write error aborts the loop.  Returns the outcome and
the number of writes performed. -/
def fileWriteLoop (encode : MetricRecord → String)
    (write : String → Option String) :
    List MetricRecord → Except String Unit × Nat
  | [] => (Except.ok (), 0)
  | record :: rest =>
    match write (encode record ++ "\n") with
    | some err => (Except.error ("failed to write to file: " ++ err), 1)
    | none =>
      let r := fileWriteLoop encode write rest
      (r.1, r.2 + 1)

/-- `FileExporter.Export`: empty batches return success immediately; then
the context is checked, and each record is appended as one line. -/
def FileExporter.Export (_e : FileExporter) (ctxCancelled : Bool)
    (encode : MetricRecord → String) (write : String → Option String)
    (records : List MetricRecord) : Except String Unit × Nat :=
  if records.length = 0 then (Except.ok (), 0)
  else if ctxCancelled then (Except.error "context cancelled", 0)
  else fileWriteLoop encode write records

/-! ## Concrete fixtures used by witnesses and counterexamples -/

/-- An all-zero `EIRStats` value. -/
def sampleEIRZero : EIRStats :=
  { equipmentChecks := { total := 0, success := 0, failed := 0, byInterface := [] }
    databaseOps := { queries := 0, inserts := 0, updates := 0, deletes := 0,
                     errors := 0, avgLatencyMs := 0, activeQueries := 0 }
    cacheStats := { hits := 0, misses := 0, hitRate := 0, size := 0,
                    maxSize := 0, evictions := 0 }
    byEquipmentStatus := [] }

/-- An all-zero `PerformanceStats` value. -/
def zeroPerformance : PerformanceStats := ⟨0, 0, 0, 0, 0, 0, 0⟩

/-- An all-zero `RequestStats` value. -/
def zeroRequests : RequestStats :=
  { total := 0, success := 0, failed := 0, pending := 0,
    bytesSent := 0, bytesRecv := 0, bySource := [], byOperation := [] }

/-- A snapshot whose counters and gauges are all zero, carrying a
pointer-typed all-zero EIR extension. -/
def sampleSnapshotZero : ServiceStats :=
  { serviceName := "EIR", serviceVersion := "1.0.0", uptime := "1m",
    timestamp := 42
    connections := ConnectionStats.zero
    requests := zeroRequests
    performance := zeroPerformance
    errors := { total := 0, byType := [], byInterface := [], lastError := none }
    interfaceStats := []
    customMetrics := [("eir", CustomValue.eirPtr sampleEIRZero)] }

/-- A transformer whose include-list names a counter id (9999) that no
record ever carries, so every record batch is filtered to empty. -/
def includeNoneTransformer : Transformer :=
  NewTransformerWithConfig "host" "eir"
    { sampleRate := 1, includeCounters := [9999], excludeCounters := [] }

/-- A current snapshot whose `ByOperation` map has the key "check" with a
non-zero avg-latency sub-field. -/
def opSampleCurrent : ServiceStats :=
  { sampleSnapshotZero with
    requests := { zeroRequests with
      total := 1, success := 1,
      byOperation := [("check", { total := 1, success := 1, failed := 0,
                                  avgLatencyMs := 5 })] }
    customMetrics := [] }

/-- A previous snapshot in which the key "check" is absent from every map. -/
def opSamplePrev : ServiceStats :=
  { sampleSnapshotZero with customMetrics := [] }

/-! ## Helper lemmas on association-list lookups -/

/-- Looking a key up in a map that rewrites every entry's value (keeping
the key) finds the rewritten value of the same key. -/
theorem lookupA_map_entry {κ α β : Type} [BEq κ] [LawfulBEq κ]
    (g : κ → α → β) (m : List (κ × α)) (k : κ) :
    lookupA (m.map (fun p => (p.1, g p.1 p.2))) k = (lookupA m k).map (g k) := by
  induction m with
  | nil => rfl
  | cons hd tl ih =>
    by_cases h : hd.1 == k
    · have hk : hd.1 = k := eq_of_beq h
      simp [lookupA, List.find?_cons_of_pos, h, hk]
    · have h' : (hd.1 == k) = false := by simpa using h
      simpa [lookupA, List.find?_cons_of_neg, h'] using ih

/-- Every key of a `calcMapDeltaCore` result is a key of the current map:
keys present only in the previous map are dropped. -/
theorem calcMapDeltaCore_keys_subset {κ : Type} [BEq κ]
    (current prev : List (κ × Nat)) :
    ∀ e ∈ calcMapDeltaCore current prev, e.1 ∈ current.map Prod.fst := by
  intro e he
  unfold calcMapDeltaCore at he
  obtain ⟨p, hp, hfe⟩ := List.mem_filterMap.mp he
  by_cases hd : safeSub64 p.2 (lookupD prev p.1 0) > 0
  · simp only [hd, if_pos] at hfe
    cases hfe
    exact List.mem_map.mpr ⟨p, hp, rfl⟩
  · simp [hd] at hfe

/-- A key absent from the current map is absent from the delta map. -/
theorem lookupA_calcMapDeltaCore_of_not_mem {κ : Type} [BEq κ] [LawfulBEq κ]
    (current prev : List (κ × Nat)) (k : κ)
    (hk : k ∉ current.map Prod.fst) :
    lookupA (calcMapDeltaCore current prev) k = none := by
  unfold lookupA
  rw [Option.map_eq_none']
  rw [List.find?_eq_none]
  intro p hp
  have h1 : p.1 ∈ current.map Prod.fst := calcMapDeltaCore_keys_subset current prev p hp
  intro hbeq
  exact hk (eq_of_beq hbeq ▸ h1)

/-- With duplicate-free keys in the current map (as in a Go map), the
zero-default read of the delta map at any key is exactly the saturating
difference of the zero-default reads of current and previous at that key
(in particular 0, i.e. absent, when the key is missing from current). -/
theorem lookupD_calcMapDeltaCore {κ : Type} [BEq κ] [LawfulBEq κ]
    (current prev : List (κ × Nat)) (k : κ)
    (hnd : (current.map Prod.fst).Nodup) :
    lookupD (calcMapDeltaCore current prev) k 0
      = safeSub64 (lookupD current k 0) (lookupD prev k 0) := by
  induction current with
  | nil =>
    have h0 : ∀ b, safeSub64 0 b = 0 := by
      intro b
      unfold safeSub64
      split <;> omega
    simp [calcMapDeltaCore, lookupD, lookupA, h0]
  | cons hd tl ih =>
    have hnd' : (tl.map Prod.fst).Nodup := (List.nodup_cons.mp hnd).2
    have hhd : hd.1 ∉ tl.map Prod.fst := (List.nodup_cons.mp hnd).1
    by_cases h : hd.1 == k
    · have hk : hd.1 = k := eq_of_beq h
      subst hk
      have hcur : lookupD (hd :: tl) hd.1 0 = hd.2 := by
        simp [lookupD, lookupA, List.find?_cons_of_pos, h]
      rw [hcur]
      by_cases hpos : safeSub64 hd.2 (lookupD prev hd.1 0) > 0
      · have hsplit : calcMapDeltaCore (hd :: tl) prev
            = (hd.1, safeSub64 hd.2 (lookupD prev hd.1 0)) :: calcMapDeltaCore tl prev := by
          simp [calcMapDeltaCore, hpos]
        rw [hsplit]
        simp [lookupD, lookupA, List.find?_cons_of_pos, h]
      · have hz : safeSub64 hd.2 (lookupD prev hd.1 0) = 0 := by omega
        have hsplit : calcMapDeltaCore (hd :: tl) prev = calcMapDeltaCore tl prev := by
          simp [calcMapDeltaCore, hpos]
        have habs : lookupA (calcMapDeltaCore tl prev) hd.1 = none :=
          lookupA_calcMapDeltaCore_of_not_mem tl prev hd.1 hhd
        rw [hsplit, lookupD, habs, hz]
        rfl
    · have h' : (hd.1 == k) = false := by simpa using h
      have hceq : lookupD (hd :: tl) k 0 = lookupD tl k 0 := by
        simp [lookupD, lookupA, List.find?_cons_of_neg, h']
      rw [hceq, ← ih hnd']
      by_cases hpos : safeSub64 hd.2 (lookupD prev hd.1 0) > 0
      · have hsplit : calcMapDeltaCore (hd :: tl) prev
            = (hd.1, safeSub64 hd.2 (lookupD prev hd.1 0)) :: calcMapDeltaCore tl prev := by
          simp [calcMapDeltaCore, hpos]
        rw [hsplit]
        simp [lookupD, lookupA, List.find?_cons_of_neg, h']
      · have hsplit : calcMapDeltaCore (hd :: tl) prev = calcMapDeltaCore tl prev := by
          simp [calcMapDeltaCore, hpos]
        rw [hsplit]

/-- A sample metric record. -/
def sampleRecord : MetricRecord :=
  { counterID := CounterTotalRequests, value := 1, causeCode := "",
    hostname := "host", systemName := "eir", timestamp := 42 }

/-- A snapshot carrying a value-typed (non-pointer) `EIRStats` under
`CustomMetrics["eir"]`, as `ParsePrometheusMetrics` produces. -/
def eirValSnapshot : ServiceStats :=
  { sampleSnapshotZero with
    customMetrics := [("eir", CustomValue.eirVal sampleEIRZero)] }

/-! ## Claim theorems -/

/-- C1: for every pair of uint64 counter values (prev, curr), the computed
delta `safeSub64 curr prev` equals `curr - prev` when `curr ≥ prev`, equals
`0` when `curr < prev`, is never negative (`Nat`-valued and bounded by
`curr`), and never wraps (stays below `2^64`). -/
theorem safeSub64_saturating (prev curr : Nat)
    (hc : curr < 2 ^ 64) (hp : prev < 2 ^ 64) :
    (prev ≤ curr → safeSub64 curr prev = curr - prev)
    ∧ (curr < prev → safeSub64 curr prev = 0)
    ∧ safeSub64 curr prev ≤ curr
    ∧ safeSub64 curr prev < 2 ^ 64 := by
  unfold safeSub64
  refine ⟨fun h => ?_, fun h => ?_, ?_, ?_⟩ <;> split <;> omega

/-- Witness for C1 at the concrete pair prev = 100, curr = 250. -/
theorem safeSub64_saturating_wit :
    (100 ≤ 250 → safeSub64 250 100 = 250 - 100)
    ∧ (250 < 100 → safeSub64 250 100 = 0)
    ∧ safeSub64 250 100 ≤ 250
    ∧ safeSub64 250 100 < 2 ^ 64 :=
  safeSub64_saturating 100 250 (by norm_num) (by norm_num)

/-- C2: the transformer suppresses every zero-valued gauge.  On the all-zero
snapshot, although the metadata table classifies active connections, pending
requests, throughput rate, the latency gauges, cache hit rate and cache size
as gauges, `Transform` emits no record at all for any of them — contradicting
the claim (and `TestTransformer_ZeroValueFiltering`) that a zero gauge is
emitted with value 0. -/
theorem transform_zero_gauge_suppressed :
    ([CounterActiveConnections, CounterPendingRequests,
      CounterRequestsPerSecond, CounterAvgLatencyMs, CounterMinLatencyMs,
      CounterMaxLatencyMs, CounterP50LatencyMs, CounterP95LatencyMs,
      CounterP99LatencyMs, CounterCacheHitRate, CounterCacheSize].all
        (fun id => counterKind id == "gauge")) = true
    ∧ ((NewTransformer "host" "eir").Transform sampleSnapshotZero).filter
        (fun r => [CounterActiveConnections, CounterPendingRequests,
          CounterRequestsPerSecond, CounterAvgLatencyMs, CounterMinLatencyMs,
          CounterMaxLatencyMs, CounterP50LatencyMs, CounterP95LatencyMs,
          CounterP99LatencyMs, CounterCacheHitRate, CounterCacheSize].contains
            r.counterID) = [] := by
  decide

/-- C3: the three request counters are emitted unconditionally.  On the
all-zero snapshot, the metadata table classifies successful requests as a
counter, yet `Transform` emits exactly one record for it with value 0 —
contradicting the claim (and `TestTransformer_ZeroValueFiltering`) that a
zero-valued counter produces no record. -/
theorem transform_zero_counter_record_emitted :
    counterKind CounterSuccessfulRequests = "counter"
    ∧ (((NewTransformer "host" "eir").Transform sampleSnapshotZero).filter
        (fun r => r.counterID == CounterSuccessfulRequests)).map
          (fun r => r.value) = [0] := by
  decide

/-- C4: with no stored previous snapshot (first cycle), the Delta Engine
returns the current snapshot itself, unchanged. -/
theorem calculateDeltaStats_first_cycle (current : ServiceStats) :
    calculateDeltaStats none current = current := rfl

/-- C5 counterexample: a cycle with a valid current snapshot in which the
transformed record list is empty (here: the include-list names only the
unused id 9999) returns before `updatePreviousSnapshot`, leaving the slot
unchanged instead of storing the current snapshot. -/
theorem exportCycle_zero_records_slot_unchanged :
    (exportCycle includeNoneTransformer ⟨none⟩
      (StatsValue.serviceStats sampleSnapshotZero)).1.prevSnapshot
      ≠ some sampleSnapshotZero := by
  decide

/-- C5 as amended: in every cycle with a valid current snapshot, if at
least one record results from transformation the slot is replaced with the
current (not the delta) snapshot; if zero records result the cycle returns
early and the slot is left exactly as it was. -/
theorem exportCycle_slot_update_spec (t : Transformer) (st : SchedulerState)
    (current : ServiceStats) :
    ((exportCycle t st (StatsValue.serviceStats current)).2 ≠ [] →
      (exportCycle t st (StatsValue.serviceStats current)).1
        = updatePreviousSnapshot st current)
    ∧ ((exportCycle t st (StatsValue.serviceStats current)).2 = [] →
      (exportCycle t st (StatsValue.serviceStats current)).1 = st) := by
  simp only [exportCycle]
  by_cases h : (t.Transform (calculateDeltaStats st.prevSnapshot current)).length = 0
  · simp [h]
  · have hne : t.Transform (calculateDeltaStats st.prevSnapshot current) ≠ [] := by
      intro hx
      exact h (by rw [hx]; rfl)
    simp [h, hne]

/-- Witness for C5's amended theorem: on the all-zero snapshot with the
default transformer the batch is non-empty, and the slot is updated to the
current snapshot. -/
theorem exportCycle_slot_update_spec_wit :
    (exportCycle (NewTransformer "host" "eir") ⟨none⟩
      (StatsValue.serviceStats sampleSnapshotZero)).1
      = updatePreviousSnapshot ⟨none⟩ sampleSnapshotZero :=
  (exportCycle_slot_update_spec (NewTransformer "host" "eir") ⟨none⟩
    sampleSnapshotZero).1 (by decide)

/-- C6 counterexample: the by-operation key "check" is absent from the
previous snapshot and present in the current one with avg-latency 5, yet
its delta entry is not its full current value — the delta engine zeroes the
avg-latency sub-field. -/
theorem byOperation_new_key_delta_not_full_value :
    lookupA opSampleCurrent.requests.byOperation "check"
      = some { total := 1, success := 1, failed := 0, avgLatencyMs := 5 }
    ∧ lookupA opSamplePrev.requests.byOperation "check" = none
    ∧ lookupA (calculateDeltaStats (some opSamplePrev)
        opSampleCurrent).requests.byOperation "check"
      ≠ some { total := 1, success := 1, failed := 0, avgLatencyMs := 5 } := by
  decide

/-- C6 as amended: for every dimensioned breakdown map the delta is
computed per key of the current map with the previous value read as zero
when the key is absent (so a brand-new key's counter sub-fields carry their
full current values), and keys present only in the previous map are absent
from the delta; in the flat count maps a key whose delta is zero is
omitted (reads back as zero), and in the by-operation map the avg-latency
sub-field is set to zero in the delta rather than carried over. -/
theorem breakdown_map_delta_spec
    (cm pm : List (String × Nat)) (k : String)
    (hnd : (cm.map Prod.fst).Nodup)
    (im ipm : List (Int × Nat)) (ki : Int)
    (hndi : (im.map Prod.fst).Nodup)
    (prev current : ServiceStats) (src op : String) :
    (lookupD (calculateMapDelta64 cm pm) k 0
        = safeSub64 (lookupD cm k 0) (lookupD pm k 0)
      ∧ (k ∉ cm.map Prod.fst → lookupA (calculateMapDelta64 cm pm) k = none))
    ∧ (lookupD (calculateMapDeltaInt64 im ipm) ki 0
        = safeSub64 (lookupD im ki 0) (lookupD ipm ki 0)
      ∧ (ki ∉ im.map Prod.fst → lookupA (calculateMapDeltaInt64 im ipm) ki = none))
    ∧ lookupA (calculateDeltaStats (some prev) current).requests.bySource src
      = (lookupA current.requests.bySource src).map (fun currStat =>
          { total := safeSub64 currStat.total
              (lookupD prev.requests.bySource src SourceStats.zero).total
            success := safeSub64 currStat.success
              (lookupD prev.requests.bySource src SourceStats.zero).success
            failed := safeSub64 currStat.failed
              (lookupD prev.requests.bySource src SourceStats.zero).failed })
    ∧ lookupA (calculateDeltaStats (some prev) current).requests.byOperation op
      = (lookupA current.requests.byOperation op).map (fun currStat =>
          { total := safeSub64 currStat.total
              (lookupD prev.requests.byOperation op OperationStats.zero).total
            success := safeSub64 currStat.success
              (lookupD prev.requests.byOperation op OperationStats.zero).success
            failed := safeSub64 currStat.failed
              (lookupD prev.requests.byOperation op OperationStats.zero).failed
            avgLatencyMs := 0 }) := by
  refine ⟨⟨?_, ?_⟩, ⟨?_, ?_⟩, ?_, ?_⟩
  · exact lookupD_calcMapDeltaCore cm pm k hnd
  · exact fun hk => lookupA_calcMapDeltaCore_of_not_mem cm pm k hk
  · exact lookupD_calcMapDeltaCore im ipm ki hndi
  · exact fun hk => lookupA_calcMapDeltaCore_of_not_mem im ipm ki hk
  · have h := lookupA_map_entry
      (fun a (b : SourceStats) =>
        ({ total := safeSub64 b.total
              (lookupD prev.requests.bySource a SourceStats.zero).total
           success := safeSub64 b.success
              (lookupD prev.requests.bySource a SourceStats.zero).success
           failed := safeSub64 b.failed
              (lookupD prev.requests.bySource a SourceStats.zero).failed } : SourceStats))
      current.requests.bySource src
    simpa [calculateDeltaStats] using h
  · have h := lookupA_map_entry
      (fun a (b : OperationStats) =>
        ({ total := safeSub64 b.total
              (lookupD prev.requests.byOperation a OperationStats.zero).total
           success := safeSub64 b.success
              (lookupD prev.requests.byOperation a OperationStats.zero).success
           failed := safeSub64 b.failed
              (lookupD prev.requests.byOperation a OperationStats.zero).failed
           avgLatencyMs := 0 } : OperationStats))
      current.requests.byOperation op
    simpa [calculateDeltaStats] using h

/-- Witness for C6's amended theorem at concrete maps and snapshots. -/
theorem breakdown_map_delta_spec_wit :
    lookupD (calculateMapDelta64 [("a", 5)] []) "a" 0
      = safeSub64 (lookupD [("a", 5)] "a" 0) (lookupD ([] : List (String × Nat)) "a" 0) :=
  (breakdown_map_delta_spec [("a", 5)] [] "a" (by decide)
    [((2001 : Int), 7)] [((2001 : Int), 4)] 2001 (by decide)
    opSamplePrev opSampleCurrent "s" "check").1.1

/-- C7: a record survives `filterRecords` exactly when its counter id is
not on the exclude-list and the include-list is empty or lists it (so an
id on both lists is dropped — exclude wins), and with both lists empty the
record list passes through unchanged. -/
theorem filterRecords_spec (t : Transformer) (records : List MetricRecord) :
    (∀ r, r ∈ t.filterRecords records ↔
        r ∈ records ∧ r.counterID ∉ t.config.excludeCounters
          ∧ (t.config.includeCounters = []
              ∨ r.counterID ∈ t.config.includeCounters))
    ∧ (t.config.includeCounters = [] → t.config.excludeCounters = [] →
        t.filterRecords records = records) := by
  have hexc : ∀ c, t.isExcluded c = true ↔ c ∈ t.config.excludeCounters := by
    intro c
    simp [Transformer.isExcluded, List.any_eq_true, beq_iff_eq]
  have hinc : ∀ c, t.isIncluded c = true ↔ c ∈ t.config.includeCounters := by
    intro c
    simp [Transformer.isIncluded, List.any_eq_true, beq_iff_eq]
  constructor
  · intro r
    by_cases hboth : t.config.includeCounters.length = 0
        ∧ t.config.excludeCounters.length = 0
    · obtain ⟨h1, h2⟩ := hboth
      have hi : t.config.includeCounters = [] := List.length_eq_zero.mp h1
      have he : t.config.excludeCounters = [] := List.length_eq_zero.mp h2
      simp [Transformer.filterRecords, h1, h2, hi, he]
    · rw [Transformer.filterRecords, if_neg hboth, List.mem_filter]
      constructor
      · rintro ⟨hr, hp⟩
        refine ⟨hr, ?_, ?_⟩
        · intro hmem
          have hx : t.isExcluded r.counterID = true := (hexc _).mpr hmem
          simp [hx] at hp
        · by_cases hie : t.config.includeCounters = []
          · exact Or.inl hie
          · right
            by_contra hni
            have h1 : t.isIncluded r.counterID = false := by
              cases hbi : t.isIncluded r.counterID
              · rfl
              · exact absurd ((hinc _).mp hbi) hni
            have hlen : t.config.includeCounters.length > 0 :=
              List.length_pos.mpr hie
            simp [h1, hlen] at hp
      · rintro ⟨hr, hnex, hinc'⟩
        refine ⟨hr, ?_⟩
        have h1 : t.isExcluded r.counterID = false := by
          cases hbe : t.isExcluded r.counterID
          · rfl
          · exact absurd ((hexc _).mp hbe) hnex
        rcases hinc' with hie | hm
        · simp [h1, hie]
        · have h2 : t.isIncluded r.counterID = true := (hinc _).mpr hm
          simp [h1, h2]
  · intro h1 h2
    simp [Transformer.filterRecords, h1, h2]

/-- Witness for C7 at a concrete transformer and record list. -/
theorem filterRecords_spec_wit :
    sampleRecord ∈ (NewTransformer "host" "eir").filterRecords [sampleRecord] ↔
      sampleRecord ∈ [sampleRecord]
      ∧ sampleRecord.counterID ∉ (NewTransformer "host" "eir").config.excludeCounters
      ∧ ((NewTransformer "host" "eir").config.includeCounters = []
          ∨ sampleRecord.counterID ∈ (NewTransformer "host" "eir").config.includeCounters) :=
  (filterRecords_spec (NewTransformer "host" "eir") [sampleRecord]).1 sampleRecord

/-- C8: a cycle in which the collector's value fails the `*ServiceStats`
cast is aborted: the scheduler state (the previous-snapshot slot) is left
exactly as it was and no records are exported. -/
theorem exportCycle_malformed_aborts (t : Transformer) (st : SchedulerState) :
    exportCycle t st StatsValue.malformed = (st, []) := rfl

/-- C9: each sink's `Export` called with an empty record batch returns
success immediately, performing zero transport operations (no HTTP POST,
no database execution, no file write), for every configuration, context
state and transport behaviour. -/
theorem export_empty_batch_noop
    (e1 : HTTPExporter) (c1 : Bool) (send : Nat → Option String)
    (e2 : PostgresExporter) (exec : Nat → Option String)
    (e3 : FileExporter) (c3 : Bool) (encode : MetricRecord → String)
    (write : String → Option String) :
    e1.Export c1 send [] = (Except.ok (), 0)
    ∧ e2.Export exec [] = (Except.ok (), 0)
    ∧ e3.Export c3 encode write [] = (Except.ok (), 0) :=
  ⟨rfl, rfl, rfl⟩

/-- C10: when `CustomMetrics["eir"]` holds a value-typed `EIRStats` (not a
pointer, as `ParsePrometheusMetrics` stores), the `*EIRStats` type
assertion fails in both the Delta Engine and the Transformer: the delta
snapshot carries no "eir" entry, and `Transform` produces exactly the
records of its general section — no EIR-specific records. -/
theorem eir_value_typed_skipped (t : Transformer) (prev current : ServiceStats)
    (e : EIRStats)
    (h : lookupA current.customMetrics "eir" = some (CustomValue.eirVal e)) :
    lookupA (calculateDeltaStats (some prev) current).customMetrics "eir" = none
    ∧ t.Transform current = t.filterRecords (t.baseRecords current) := by
  have hptr : asEIRPtr (lookupA current.customMetrics "eir") = none := by
    rw [h]
    rfl
  constructor
  · simp only [calculateDeltaStats]
    rw [hptr]
    rfl
  · simp [Transformer.Transform, hptr]

/-- Witness for C10 on a concrete snapshot holding a value-typed
`EIRStats`. -/
theorem eir_value_typed_skipped_wit :
    lookupA (calculateDeltaStats (some sampleSnapshotZero)
      eirValSnapshot).customMetrics "eir" = none
    ∧ (NewTransformer "host" "eir").Transform eirValSnapshot
      = (NewTransformer "host" "eir").filterRecords
          ((NewTransformer "host" "eir").baseRecords eirValSnapshot) :=
  eir_value_typed_skipped (NewTransformer "host" "eir") sampleSnapshotZero
    eirValSnapshot sampleEIRZero (by decide)

end Telco
